import Mathlib

/-!
Shallow embedding of the Express backend in `backend/server.js` of the
mern-auth-app repository: credential store, password hashing, JWT
issuance/verification, the `authenticateToken` middleware, the auth routes
(`/api/auth/register`, `/api/auth/login`) and the ownership-scoped data
routes (`GET /api/data`, `PUT /api/data/:id`, `DELETE /api/data/:id`),
together with the `asyncHandler` / global-error-handler plumbing.

Modelling conventions:
- MongoDB collections are Lean lists; ObjectIds are `Nat` (the `:id` route
  parameter stays a `String` and goes through an explicit cast step that can
  throw, as mongoose's ObjectId cast does).
- Timestamps are `Nat` seconds.  `timestamps: true` is modelled by a
  `createdAt` field (the `updatedAt` field is not needed by any claim).
- JS truthiness of request-body string fields (`!title` etc.) is modelled by
  `truthy : Option String → Bool` (absent or empty string is falsy).
- bcryptjs is modelled by a salted tagging scheme: the hash embeds the salt
  and is never equal to the plaintext; `bcryptCompare` checks the embedding.
- jsonwebtoken is modelled by `Token` (payload plus the secret that signed
  it) wrapped in `TokenStr`, whose `garbage` constructor stands for header
  strings that do not parse as a JWT.  `jwt.verify` checks, in the library's
  order: parse, signature, then expiry (expired when `exp ≤ now`).
-/

namespace MernAuth

/-- Character-level lowercasing; models mongoose's `lowercase: true` setter
on the `email` path (JS `String.prototype.toLowerCase` on ASCII emails). -/
def lowerStr (s : String) : String := String.mk (s.data.map Char.toLower)

/-- Character-level trim; models mongoose's `trim: true` setter. -/
def trimStr (s : String) : String :=
  String.mk (((s.data.dropWhile Char.isWhitespace).reverse.dropWhile
    Char.isWhitespace).reverse)

/-- JS truthiness of an optional string body field: `undefined` and `""` are
falsy, every other string is truthy (models `if (!name || ...)`). -/
def truthy : Option String → Bool
  | none => false
  | some s => s != ""

/-- Model of `bcrypt.hash(plaintext, 12)` with an explicit salt: the hash
embeds the algorithm/cost tag, the salt and the plaintext, so distinct salts
give distinct hashes and the hash is never the plaintext. -/
def bcryptHash (salt p : String) : String :=
  "$2b$12$" ++ salt ++ "$" ++ p

/-- Model of `bcrypt.compare`: succeeds exactly on strings produced by
`bcryptHash` from the given plaintext (the salt is read back out of the
hash).  Never throws, mirroring the library. -/
def bcryptCompare (p h : String) : Bool :=
  let d := h.data
  let salt := (d.drop 7).takeWhile (fun c => c != '$')
  (d.take 7 == "$2b$12$".data) &&
    (d.drop 7 == salt ++ '$' :: p.data)

/-- The `user` / `admin` enum of the user schema (`default: 'user'`). -/
inductive Role where
  | user
  | admin
deriving DecidableEq, Repr

/-- A document of the `User` collection (`userSchema`): `_id`, trimmed
`name`, lowercased unique `email`, bcrypt `password` hash, `role`, and the
`timestamps: true` creation time. -/
structure User where
  _id : Nat
  name : String
  email : String
  password : String
  role : Role
  createdAt : Nat
deriving DecidableEq, Repr

/-- The password-free view of a user: what `.select('-password')` resolves
in the middleware and what the `user:` summaries of the register/login/me
responses expose (`id`, `name`, `email`, `role`).  By construction this
type has no password field. -/
structure UserView where
  id : Nat
  name : String
  email : String
  role : Role
deriving DecidableEq, Repr

/-- Project a stored user to its password-free view. -/
def userView (u : User) : UserView := ⟨u._id, u.name, u.email, u.role⟩

/-- Model of `User.findById(id)`: first document whose `_id` matches. -/
def findById (db : List User) (id : Nat) : Option User :=
  db.find? (fun u => u._id == id)

/-- Model of `User.findOne({ email })`.  Mongoose (≥ 6) runs schema setters on query
filter values, so the `lowercase: true` setter lowercases the filter email
before matching it against the stored (already lowercased at save time)
emails; this is what makes the email a case-insensitive login key. -/
def findOneByEmail (db : List User) (e : String) : Option User :=
  db.find? (fun u => u.email == lowerStr e)

/-- A signed JWT as issued by this server: payload fields plus the secret
that produced the signature (symmetric HS256: the signature verifies against
`secret` iff `sig = secret`). -/
structure Token where
  userId : Nat
  iat : Nat
  exp : Nat
  sig : String
deriving DecidableEq, Repr

/-- A bearer-token string: either a well-formed signed token or an
unparseable string. -/
inductive TokenStr where
  | garbage (s : String)
  | signed (t : Token)
deriving DecidableEq, Repr

/-- Whether the token string is the empty string (only `garbage ""` is:
serialized signed tokens are non-empty).  Models JS falsiness of `''`. -/
def TokenStr.strEmpty : TokenStr → Bool
  | .garbage s => s == ""
  | .signed _ => false

/-- The three failure classes of `jwt.verify`. -/
inductive JwtErr where
  | malformed
  | invalidSignature
  | expired
deriving DecidableEq, Repr

/-- Decoded JWT payload. -/
structure JwtPayload where
  userId : Nat
  iat : Nat
  exp : Nat
deriving DecidableEq, Repr

/-- Model of `jwt.sign({ userId }, secret, { expiresIn: '24h' })` at time `now`:
subject, issued-at `now`, expiry `now + 86400` (24 hours in seconds). -/
def jwtSign (userId : Nat) (secret : String) (now : Nat) : Token :=
  ⟨userId, now, now + 86400, secret⟩

/-- Model of `jwt.verify(token, secret)` at time `now`: parse, then signature, then
expiry (the token is expired when `now` has reached `exp`). -/
def jwtVerify (ts : TokenStr) (secret : String) (now : Nat) :
    Except JwtErr JwtPayload :=
  match ts with
  | .garbage _ => .error .malformed
  | .signed t =>
    if t.sig != secret then .error .invalidSignature
    else if t.exp ≤ now then .error .expired
    else .ok ⟨t.userId, t.iat, t.exp⟩

/-- The value of an `Authorization` request header: either a string that
does not start with `"Bearer "`, or `"Bearer "` followed by a token
string. -/
inductive AuthHeaderVal where
  | notBearer (s : String)
  | bearer (ts : TokenStr)
deriving DecidableEq, Repr

/-- Lines 85–92 of `server.js`: read the header (absent behaves as `''`),
strip the `"Bearer "` prefix, and treat the result as missing when the
header is absent, not `Bearer`-prefixed, or the remainder is empty (JS
`!token`). -/
def extractBearer (hdr : Option AuthHeaderVal) : Option TokenStr :=
  match hdr with
  | none => none
  | some (.notBearer _) => none
  | some (.bearer ts) => if ts.strEmpty then none else some ts

/-- An error response `res.status(status).json({ error })`. -/
structure ErrResp where
  status : Nat
  error : String
deriving DecidableEq, Repr

/-- The `authenticateToken` middleware (lines 84–105): missing token →
401 `'Access token required'`; `jwt.verify` throw → 401
`'Invalid or expired token'`; subject not found in the store → 401
`'Invalid token'`; otherwise the password-free user is attached. -/
def authenticateToken (db : List User) (secret : String) (now : Nat)
    (hdr : Option AuthHeaderVal) : Except ErrResp UserView :=
  match extractBearer hdr with
  | none => .error ⟨401, "Access token required"⟩
  | some ts =>
    match jwtVerify ts secret now with
    | .error _ => .error ⟨401, "Invalid or expired token"⟩
    | .ok payload =>
      match findById db payload.userId with
      | none => .error ⟨401, "Invalid token"⟩
      | some u => .ok (userView u)

/-- A protected route: the middleware runs first and the handler runs only
on its success, with the resolved password-free user. -/
def protectedRoute {α : Type} (db : List User) (secret : String) (now : Nat)
    (hdr : Option AuthHeaderVal) (handler : UserView → Except ErrResp α) :
    Except ErrResp α :=
  match authenticateToken db secret now hdr with
  | .error e => .error e
  | .ok u => handler u

/-- Modelled from the spec's middleware contract (§4.3), for comparison with
the source-derived `authenticateToken`: the request carries a
`Bearer`-prefixed header whose token is signed with the server secret, is
unexpired, and whose subject id exists in the store. -/
def specAuthOk (db : List User) (secret : String) (now : Nat)
    (hdr : Option AuthHeaderVal) : Prop :=
  ∃ t : Token, hdr = some (.bearer (.signed t)) ∧ t.sig = secret ∧
    now < t.exp ∧ ∃ u ∈ db, u._id = t.userId

/-- Body of `POST /api/auth/register`. -/
structure RegisterBody where
  name : Option String
  email : Option String
  password : Option String
deriving DecidableEq, Repr

/-- Response of the register handler.  `created` is the 201 body
`{message, token, user}`; `err` is `res.status(status).json({error})`. -/
inductive RegisterResult where
  | err (status : Nat) (error : String)
  | created (message : String) (token : Token) (user : UserView)
deriving DecidableEq, Repr

/-- HTTP status actually sent for a register result (`res.status(201)` on
the success path). -/
def RegisterResult.statusOf : RegisterResult → Nat
  | .err s _ => s
  | .created _ _ _ => 201

/-- The `POST /api/auth/register` handler (lines 108–148): presence check,
6-character password minimum, duplicate-email check via
`User.findOne({email})`, then hash (cost 12, fresh `salt`), persist (with
the `trim`/`lowercase` schema setters and the `role` default `'user'`),
sign a 24h token for the new `_id`, and answer 201 with the password-free
summary.  `freshId` is the ObjectId mongoose mints for the new document. -/
def register (db : List User) (secret : String) (now : Nat) (freshId : Nat)
    (salt : String) (body : RegisterBody) : RegisterResult × List User :=
  if !truthy body.name || !truthy body.email || !truthy body.password then
    (.err 400 "All fields are required", db)
  else
    let password := body.password.getD ""
    if password.length < 6 then
      (.err 400 "Password must be at least 6 characters", db)
    else
      match findOneByEmail db (body.email.getD "") with
      | some _ => (.err 400 "User already exists", db)
      | none =>
        let u : User :=
          { _id := freshId
            name := trimStr (body.name.getD "")
            email := lowerStr (body.email.getD "")
            password := bcryptHash salt password
            role := .user
            createdAt := now }
        (.created "User created successfully" (jwtSign freshId secret now)
          (userView u), db ++ [u])

/-- Body of `POST /api/auth/login`. -/
structure LoginBody where
  email : Option String
  password : Option String
deriving DecidableEq, Repr

/-- Response of the login handler: `ok` is the 200 body
`{message, token, user}`. -/
inductive LoginResult where
  | err (status : Nat) (error : String)
  | ok (message : String) (token : Token) (user : UserView)
deriving DecidableEq, Repr

/-- The `POST /api/auth/login` handler (lines 150–180): presence check,
lookup by email, `bcrypt.compare` against the stored hash; an absent email
and a failed comparison answer the same 400 `'Invalid credentials'`. -/
def login (db : List User) (secret : String) (now : Nat) (body : LoginBody) :
    LoginResult :=
  if !truthy body.email || !truthy body.password then
    .err 400 "Email and password are required"
  else
    match findOneByEmail db (body.email.getD "") with
    | none => .err 400 "Invalid credentials"
    | some u =>
      if bcryptCompare (body.password.getD "") u.password then
        .ok "Login successful" (jwtSign u._id secret now) (userView u)
      else
        .err 400 "Invalid credentials"

/-- A document of the `DataItem` collection (`dataItemSchema`): `_id`,
trimmed `title`, `description`, owning `userId`, creation time. -/
structure DataItem where
  _id : Nat
  title : String
  description : String
  userId : Nat
  createdAt : Nat
deriving DecidableEq, Repr

/-- An error thrown inside a handler and forwarded by `asyncHandler` to the
global error handler: an optional `status` field and a `message`. -/
structure ThrownErr where
  status : Option Nat
  message : String
deriving DecidableEq, Repr

/-- Hex digit test for ObjectId strings. -/
def isHexChar (c : Char) : Bool :=
  ('0' ≤ c && c ≤ '9') || ('a' ≤ c && c ≤ 'f') || ('A' ≤ c && c ≤ 'F')

/-- Strings mongoose casts to an ObjectId without throwing: 24 hex
characters, or any 12-character string (12-byte form). -/
def validObjectIdStr (s : String) : Bool :=
  (s.length == 24 && s.data.all isHexChar) || s.length == 12

/-- Numeric value of a hex digit. -/
def hexVal (c : Char) : Nat :=
  if '0' ≤ c && c ≤ '9' then c.toNat - 48
  else if 'a' ≤ c && c ≤ 'f' then c.toNat - 87
  else if 'A' ≤ c && c ≤ 'F' then c.toNat - 55
  else 0

/-- Decode a castable ObjectId string to the `Nat` ObjectId of the model. -/
def decodeObjectId (s : String) : Nat :=
  if s.length == 24 then s.data.foldl (fun acc c => acc * 16 + hexVal c) 0
  else s.data.foldl (fun acc c => acc * 256 + c.toNat) 0

/-- The `CastError` message mongoose throws for an uncastable `:id`. -/
def castErrMsg (s : String) : String :=
  "Cast to ObjectId failed for value \"" ++ s ++
    "\" (type string) at path \"_id\" for model \"DataItem\""

/-- Casting the `:id` route parameter inside a `DataItem` query: an
uncastable value makes the query reject with a `CastError` (which has a
`message` but no `status` field). -/
def castObjectId (s : String) : Except ThrownErr Nat :=
  if validObjectIdStr s then .ok (decodeObjectId s)
  else .error ⟨none, castErrMsg s⟩

/-- Model of `DataItem.findOneAndUpdate({_id, userId}, {title, description},
{new: true})` on an already-cast id: update the first document matching
both the id and the owner (applying the `trim` setter to `title`) and
return the updated document, or return `none` leaving the list unchanged. -/
def findOneAndUpdate (db : List DataItem) (oid uid : Nat)
    (title desc : String) : Option DataItem × List DataItem :=
  match db with
  | [] => (none, [])
  | x :: xs =>
    if x._id == oid && x.userId == uid then
      let x2 := { x with title := trimStr title, description := desc }
      (some x2, x2 :: xs)
    else
      let r := findOneAndUpdate xs oid uid title desc
      (r.1, x :: r.2)

/-- Model of `DataItem.findOneAndDelete({_id, userId})` on an already-cast id. -/
def findOneAndDelete (db : List DataItem) (oid uid : Nat) :
    Option DataItem × List DataItem :=
  match db with
  | [] => (none, [])
  | x :: xs =>
    if x._id == oid && x.userId == uid then (some x, xs)
    else
      let r := findOneAndDelete xs oid uid
      (r.1, x :: r.2)

/-- Newest-first order on data items (`.sort({ createdAt: -1 })`). -/
def createdDescRel (a b : DataItem) : Prop := b.createdAt ≤ a.createdAt

instance : DecidableRel createdDescRel :=
  fun a b => Nat.decLe b.createdAt a.createdAt

instance : IsTotal DataItem createdDescRel :=
  ⟨fun a b => Nat.le_total b.createdAt a.createdAt⟩

instance : IsTrans DataItem createdDescRel :=
  ⟨fun _ _ _ hab hbc => Nat.le_trans hbc hab⟩

/-- The `GET /api/data` handler body (lines 198–207):
`DataItem.find({userId}).sort({createdAt: -1})`. -/
def getData (db : List DataItem) (uid : Nat) : List DataItem :=
  (db.filter (fun it => it.userId == uid)).insertionSort createdDescRel

/-- Body of `PUT /api/data/:id`. -/
structure DataBody where
  title : Option String
  description : Option String
deriving DecidableEq, Repr

/-- Response of the update/delete data handlers: a JSON'd item (200), the
delete confirmation message (200), or `res.status(status).json({error})`. -/
inductive DataResp where
  | err (status : Nat) (error : String)
  | item (it : DataItem)
  | message (msg : String)
deriving DecidableEq, Repr

/-- HTTP status actually sent for a data-route response (`res.json` alone
sends 200). -/
def DataResp.statusOf : DataResp → Nat
  | .err s _ => s
  | .item _ => 200
  | .message _ => 200

/-- The `PUT /api/data/:id` handler (lines 230–254): body presence check,
then the combined match-by-id-and-owner update; no match → 404
`'Data item not found'`.  An uncastable `:id` makes the query throw. -/
def updateData (db : List DataItem) (uid : Nat) (idStr : String)
    (body : DataBody) : Except ThrownErr (DataResp × List DataItem) :=
  if !truthy body.title || !truthy body.description then
    .ok (.err 400 "Title and description are required", db)
  else
    match castObjectId idStr with
    | .error e => .error e
    | .ok oid =>
      let r := findOneAndUpdate db oid uid (body.title.getD "")
        (body.description.getD "")
      match r.1 with
      | none => .ok (.err 404 "Data item not found", r.2)
      | some it => .ok (.item it, r.2)

/-- The `DELETE /api/data/:id` handler (lines 256–270): the combined
match-by-id-and-owner delete; no match → 404 `'Data item not found'`. -/
def deleteData (db : List DataItem) (uid : Nat) (idStr : String) :
    Except ThrownErr (DataResp × List DataItem) :=
  match castObjectId idStr with
  | .error e => .error e
  | .ok oid =>
    let r := findOneAndDelete db oid uid
    match r.1 with
    | none => .ok (.err 404 "Data item not found", r.2)
    | some _ => .ok (.message "Data item deleted successfully", r.2)

/-- The global error handler (lines 278–283): the error is logged
server-side (`console.error`), the status is `err.status || 500`, and the
body is `{ error: err.message || 'Server error' }`. -/
def globalErrorHandler (e : ThrownErr) : ErrResp :=
  ⟨e.status.getD 500, if e.message == "" then "Server error" else e.message⟩

/-- The `asyncHandler` plumbing around a data route: a thrown error is caught
and forwarded to the global error handler; the store is left as it was. -/
def runDataRoute (db : List DataItem)
    (r : Except ThrownErr (DataResp × List DataItem)) :
    DataResp × List DataItem :=
  match r with
  | .ok x => x
  | .error e =>
    (.err (globalErrorHandler e).status (globalErrorHandler e).error, db)

/-! ## Helper lemmas -/

/-- A bcrypt hash is strictly longer than its plaintext, hence never equal
to it. -/
theorem bcryptHash_ne_plaintext (salt p : String) : bcryptHash salt p ≠ p := by
  intro h
  have h2 := congrArg String.length h
  unfold bcryptHash at h2
  rw [String.length_append, String.length_append, String.length_append] at h2
  have e1 : ("$2b$12$" : String).length = 7 := rfl
  have e2 : ("$" : String).length = 1 := rfl
  omega

/-- Every error the middleware can emit is one of its three 401 responses. -/
theorem authenticateToken_error_cases (db : List User) (secret : String)
    (now : Nat) (hdr : Option AuthHeaderVal) (e : ErrResp)
    (h : authenticateToken db secret now hdr = .error e) :
    e = ⟨401, "Access token required"⟩ ∨
      e = ⟨401, "Invalid or expired token"⟩ ∨ e = ⟨401, "Invalid token"⟩ := by
  unfold authenticateToken at h
  repeat' split at h
  all_goals simp_all

/-- The mongoose `CastError` message is never the empty string. -/
theorem castErrMsg_ne_empty (s : String) : castErrMsg s ≠ "" := by
  intro h
  have h2 := congrArg String.length h
  unfold castErrMsg at h2
  rw [String.length_append, String.length_append] at h2
  have e1 : ("Cast to ObjectId failed for value \"" : String).length = 35 := rfl
  have e2 : ("" : String).length = 0 := rfl
  omega

/-! ## Claim theorems -/

/-- Claim C5: a token verified immediately after issuance for identity
`uid` yields `uid` as subject, its encoded expiry equals its issued-at plus
24 hours (86400 s), and any token whose expiry lies in the past never
verifies successfully — failing with the expiry-class error whenever its
signature matches the server secret. -/
theorem token_issue_verify_roundtrip (uid : Nat) (secret : String)
    (now : Nat) (t : Token) (secret2 : String) (now2 : Nat)
    (hpast : t.exp < now2) :
    jwtVerify (.signed (jwtSign uid secret now)) secret now =
        .ok ⟨uid, now, now + 86400⟩ ∧
      (jwtSign uid secret now).exp = (jwtSign uid secret now).iat + 86400 ∧
      (∀ p, jwtVerify (.signed t) secret2 now2 ≠ .ok p) ∧
      (t.sig = secret2 → jwtVerify (.signed t) secret2 now2 =
        .error .expired) := by
  refine ⟨?_, rfl, ?_, ?_⟩
  · simp [jwtVerify, jwtSign]
  · intro p
    by_cases hs : t.sig = secret2 <;>
      simp [jwtVerify, hs, Nat.le_of_lt hpast]
  · intro hs
    simp [jwtVerify, hs, Nat.le_of_lt hpast]

/-- Witness for C5 at a concrete identity, secret and clock. -/
theorem token_issue_verify_roundtrip_witness :
    jwtVerify (.signed (jwtSign 7 "s" 100)) "s" 100 =
        .ok ⟨7, 100, 100 + 86400⟩ ∧
      jwtVerify (.signed (Token.mk 7 0 50 "s")) "s" 60 = .error .expired := by
  have h := token_issue_verify_roundtrip 7 "s" 100 ⟨7, 0, 50, "s"⟩ "s" 60
    (by decide)
  exact ⟨h.1, h.2.2.2 rfl⟩

/-- Claim C9 counterexample: an unexpected handler-level failure whose
thrown error carries an internal message (a store connection failure)
reaches the client verbatim in the response body — the body is the thrown
error's own message, not the generic `'Server error'`. -/
theorem error_handler_leaks_message_counterexample :
    globalErrorHandler ⟨none, "connect ECONNREFUSED 127.0.0.1:27017"⟩ =
        ⟨500, "connect ECONNREFUSED 127.0.0.1:27017"⟩ ∧
      "connect ECONNREFUSED 127.0.0.1:27017" ≠ "Server error" ∧
      globalErrorHandler ⟨none, "connect ECONNREFUSED 127.0.0.1:27017"⟩ ≠
        globalErrorHandler ⟨none, "hash failure"⟩ := by
  refine ⟨rfl, by decide, by decide⟩

/-- Claim C9 (amended): for every handler-level failure whose error carries
no `status`, the client receives status 500, and the response body is the
thrown error's own message when that message is non-empty — the generic
`'Server error'` text is used only when the message is empty.  (The detail
is also logged server-side; no stack trace is sent, but the message is.) -/
theorem error_handler_status_and_body (e : ThrownErr)
    (hs : e.status = none) :
    (globalErrorHandler e).status = 500 ∧
      (e.message ≠ "" → (globalErrorHandler e).error = e.message) ∧
      (e.message = "" → (globalErrorHandler e).error = "Server error") := by
  refine ⟨by simp [globalErrorHandler, hs], ?_, ?_⟩
  · intro hm
    simp [globalErrorHandler, hm]
  · intro hm
    simp [globalErrorHandler, hm]

/-- Witness for the amended C9 at a concrete thrown error. -/
theorem error_handler_status_and_body_witness :
    (globalErrorHandler ⟨none, "boom"⟩).status = 500 ∧
      (globalErrorHandler ⟨none, "boom"⟩).error = "boom" := by
  have h := error_handler_status_and_body ⟨none, "boom"⟩ rfl
  exact ⟨h.1, h.2.1 (by decide)⟩

/-- Claim C2 counterexample: two authentication-failure sub-causes produce
different response bodies — a missing `Authorization` header answers
`'Access token required'` while an expired (correctly signed) token answers
`'Invalid or expired token'` — so the body is not identical across the
sub-causes and does distinguish them. -/
theorem auth_bodies_differ_counterexample :
    authenticateToken [] "s" 100000 none =
        .error ⟨401, "Access token required"⟩ ∧
      authenticateToken [] "s" 100000
          (some (.bearer (.signed ⟨1, 0, 86400, "s"⟩))) =
        .error ⟨401, "Invalid or expired token"⟩ ∧
      "Access token required" ≠ "Invalid or expired token" := by
  refine ⟨rfl, rfl, by decide⟩

/-- Claim C2 (amended): every authentication failure of the middleware has
status 401; an invalid signature and an expired token yield the identical
body `'Invalid or expired token'`, so those two sub-causes are mutually
indistinguishable from the body, but a missing or non-`Bearer`-prefixed
`Authorization` header yields the different body `'Access token required'`,
so that sub-cause is distinguishable from the other two.  (The theorem also
pins the remaining reachable sub-cause of this failure class: a
`Bearer`-prefixed unparseable non-empty token likewise yields
`'Invalid or expired token'`, while a `Bearer` prefix followed by the empty
string is JS-falsy and behaves as a missing token.) -/
theorem auth_failures_all_401_two_bodies (db : List User) (secret : String)
    (now : Nat) :
    (∀ hdr e, authenticateToken db secret now hdr = .error e →
        e.status = 401) ∧
      authenticateToken db secret now none =
        .error ⟨401, "Access token required"⟩ ∧
      (∀ s, authenticateToken db secret now (some (.notBearer s)) =
        .error ⟨401, "Access token required"⟩) ∧
      (∀ t : Token, t.sig ≠ secret →
        authenticateToken db secret now (some (.bearer (.signed t))) =
          .error ⟨401, "Invalid or expired token"⟩) ∧
      (∀ t : Token, t.sig = secret → t.exp ≤ now →
        authenticateToken db secret now (some (.bearer (.signed t))) =
          .error ⟨401, "Invalid or expired token"⟩) ∧
      (∀ s : String, s ≠ "" →
        authenticateToken db secret now (some (.bearer (.garbage s))) =
          .error ⟨401, "Invalid or expired token"⟩) ∧
      authenticateToken db secret now (some (.bearer (.garbage ""))) =
        .error ⟨401, "Access token required"⟩ ∧
      "Access token required" ≠ "Invalid or expired token" := by
  refine ⟨?_, rfl, fun s => rfl, ?_, ?_, ?_, rfl, by decide⟩
  · intro hdr e h
    rcases authenticateToken_error_cases db secret now hdr e h with
      h1 | h1 | h1 <;> simp [h1]
  · intro t hs
    simp [authenticateToken, extractBearer, TokenStr.strEmpty, jwtVerify, hs]
  · intro t hs hexp
    simp [authenticateToken, extractBearer, TokenStr.strEmpty, jwtVerify,
      hs, hexp]
  · intro s hs
    simp [authenticateToken, extractBearer, TokenStr.strEmpty, jwtVerify, hs]

/-- Witness for the amended C2 at concrete failing requests: an expired
signed token, an unparseable `Bearer` token, and a missing header. -/
theorem auth_failures_all_401_two_bodies_witness :
    authenticateToken [] "s" 5 none = .error ⟨401, "Access token required"⟩ ∧
      authenticateToken [] "s" 5 (some (.bearer (.signed ⟨1, 0, 3, "s"⟩))) =
        .error ⟨401, "Invalid or expired token"⟩ ∧
      authenticateToken [] "s" 5 (some (.bearer (.garbage "not-a-jwt"))) =
        .error ⟨401, "Invalid or expired token"⟩ ∧
      (ErrResp.mk 401 "Invalid or expired token").status = 401 := by
  have h := auth_failures_all_401_two_bodies [] "s" 5
  refine ⟨h.2.1, h.2.2.2.2.1 ⟨1, 0, 3, "s"⟩ rfl (by decide),
    h.2.2.2.2.2.1 "not-a-jwt" (by decide), ?_⟩
  exact h.1 (some (.bearer (.signed ⟨1, 0, 3, "s"⟩))) _
    (h.2.2.2.2.1 ⟨1, 0, 3, "s"⟩ rfl (by decide))

/-- Claim C3: a login with an unregistered email and a login with a
registered email but a failing password verification answer the identical
response — status 400 with body `'Invalid credentials'` — so the responses
carry no signal about whether the email is registered. -/
theorem login_no_enumeration_signal (db : List User) (secret : String)
    (now : Nat) (e1 p1 e2 p2 : String) (u : User)
    (he1 : e1 ≠ "") (hp1 : p1 ≠ "") (he2 : e2 ≠ "") (hp2 : p2 ≠ "")
    (habsent : findOneByEmail db e1 = none)
    (hfound : findOneByEmail db e2 = some u)
    (hbadpw : bcryptCompare p2 u.password = false) :
    login db secret now ⟨some e1, some p1⟩ = .err 400 "Invalid credentials" ∧
      login db secret now ⟨some e2, some p2⟩ =
        .err 400 "Invalid credentials" ∧
      login db secret now ⟨some e1, some p1⟩ =
        login db secret now ⟨some e2, some p2⟩ := by
  have t1 : truthy (some e1) = true := by simp [truthy, he1]
  have t2 : truthy (some p1) = true := by simp [truthy, hp1]
  have t3 : truthy (some e2) = true := by simp [truthy, he2]
  have t4 : truthy (some p2) = true := by simp [truthy, hp2]
  have l1 : login db secret now ⟨some e1, some p1⟩ =
      .err 400 "Invalid credentials" := by
    simp [login, t1, t2, habsent]
  have l2 : login db secret now ⟨some e2, some p2⟩ =
      .err 400 "Invalid credentials" := by
    simp [login, t3, t4, hfound, hbadpw]
  exact ⟨l1, l2, l1.trans l2.symm⟩

/-- Witness for C3: a concrete store with one registered user, probed with
an unregistered email and with the registered email but a wrong password. -/
theorem login_no_enumeration_signal_witness :
    login [⟨1, "Ann", "a@b.c", bcryptHash "s1" "hunter22", .user, 0⟩]
        "sec" 9 ⟨some "x@y.z", some "whatever"⟩ =
      login [⟨1, "Ann", "a@b.c", bcryptHash "s1" "hunter22", .user, 0⟩]
        "sec" 9 ⟨some "a@b.c", some "wrongpw"⟩ :=
  (login_no_enumeration_signal
    [⟨1, "Ann", "a@b.c", bcryptHash "s1" "hunter22", .user, 0⟩] "sec" 9
    "x@y.z" "whatever" "a@b.c" "wrongpw"
    ⟨1, "Ann", "a@b.c", bcryptHash "s1" "hunter22", .user, 0⟩
    (by decide) (by decide) (by decide) (by decide)
    (by decide) (by decide) (by decide)).2.2

/-- When no stored item matches both the id and the owner, the combined
update query matches nothing and leaves the store unchanged. -/
theorem findOneAndUpdate_nomatch (db : List DataItem) (oid uid : Nat)
    (title desc : String)
    (h : ∀ it ∈ db, it._id = oid → it.userId ≠ uid) :
    findOneAndUpdate db oid uid title desc = (none, db) := by
  induction db with
  | nil => rfl
  | cons x xs ih =>
    have hx := h x (List.mem_cons_self x xs)
    have hcond : (x._id == oid && x.userId == uid) = false := by
      by_cases h1 : x._id = oid
      · simp [h1, hx h1]
      · simp [h1]
    have ih2 := ih (fun it hit => h it (List.mem_cons_of_mem x hit))
    simp [findOneAndUpdate, hcond, ih2]

/-- When no stored item matches both the id and the owner, the combined
delete query matches nothing and leaves the store unchanged. -/
theorem findOneAndDelete_nomatch (db : List DataItem) (oid uid : Nat)
    (h : ∀ it ∈ db, it._id = oid → it.userId ≠ uid) :
    findOneAndDelete db oid uid = (none, db) := by
  induction db with
  | nil => rfl
  | cons x xs ih =>
    have hx := h x (List.mem_cons_self x xs)
    have hcond : (x._id == oid && x.userId == uid) = false := by
      by_cases h1 : x._id = oid
      · simp [h1, hx h1]
      · simp [h1]
    have ih2 := ih (fun it hit => h it (List.mem_cons_of_mem x hit))
    simp [findOneAndDelete, hcond, ih2]

/-- Claim C1: an authenticated update or delete on a (castable) id that no
record owned by the requester carries — the record being absent or owned by
another identity — answers 404 with the same `'Data item not found'` body
in both cases and for both verbs, and leaves the store unchanged. -/
theorem update_delete_not_found (db : List DataItem) (uid : Nat)
    (idStr : String) (oid : Nat) (title desc : String)
    (hcast : castObjectId idStr = .ok oid)
    (hnone : ∀ it ∈ db, it._id = oid → it.userId ≠ uid)
    (ht : title ≠ "") (hd : desc ≠ "") :
    updateData db uid idStr ⟨some title, some desc⟩ =
        .ok (.err 404 "Data item not found", db) ∧
      deleteData db uid idStr = .ok (.err 404 "Data item not found", db) ∧
      (DataResp.err 404 "Data item not found").statusOf = 404 := by
  have t1 : truthy (some title) = true := by simp [truthy, ht]
  have t2 : truthy (some desc) = true := by simp [truthy, hd]
  refine ⟨?_, ?_, rfl⟩
  · simp [updateData, t1, t2, hcast,
      findOneAndUpdate_nomatch db oid uid title desc hnone]
  · simp [deleteData, hcast, findOneAndDelete_nomatch db oid uid hnone]

/-- Witness for C1: a store holding one record owned by identity 2, probed
by identity 1 with the record's own id. -/
theorem update_delete_not_found_witness :
    updateData [⟨1, "t", "d", 2, 0⟩] 1 "000000000000000000000001"
        ⟨some "x", some "y"⟩ =
      .ok (.err 404 "Data item not found", [⟨1, "t", "d", 2, 0⟩]) ∧
      deleteData [⟨1, "t", "d", 2, 0⟩] 1 "000000000000000000000001" =
        .ok (.err 404 "Data item not found", [⟨1, "t", "d", 2, 0⟩]) := by
  have h := update_delete_not_found [⟨1, "t", "d", 2, 0⟩] 1
    "000000000000000000000001" 1 "x" "y" rfl (by decide)
    (by decide) (by decide)
  exact ⟨h.1, h.2.1⟩

/-- Claim C10: an authenticated update or delete whose `:id` is not
castable to an ObjectId makes the ownership-scoped query throw a
`CastError`; the error propagates to the global error handler, and the
response is a 500 carrying the cast message — not the 404 of a castable id
matching no owned record — while the store is untouched. -/
theorem invalid_objectid_gives_500 (db : List DataItem) (uid : Nat)
    (idStr : String) (title desc : String)
    (hbad : validObjectIdStr idStr = false)
    (ht : title ≠ "") (hd : desc ≠ "") :
    updateData db uid idStr ⟨some title, some desc⟩ =
        .error ⟨none, castErrMsg idStr⟩ ∧
      deleteData db uid idStr = .error ⟨none, castErrMsg idStr⟩ ∧
      runDataRoute db (updateData db uid idStr ⟨some title, some desc⟩) =
        (.err 500 (castErrMsg idStr), db) ∧
      runDataRoute db (deleteData db uid idStr) =
        (.err 500 (castErrMsg idStr), db) ∧
      (DataResp.err 500 (castErrMsg idStr)).statusOf = 500 := by
  have t1 : truthy (some title) = true := by simp [truthy, ht]
  have t2 : truthy (some desc) = true := by simp [truthy, hd]
  have hcast : castObjectId idStr = .error ⟨none, castErrMsg idStr⟩ := by
    simp [castObjectId, hbad]
  have hmsg := castErrMsg_ne_empty idStr
  have hu : updateData db uid idStr ⟨some title, some desc⟩ =
      .error ⟨none, castErrMsg idStr⟩ := by
    simp [updateData, t1, t2, hcast]
  have hdel : deleteData db uid idStr = .error ⟨none, castErrMsg idStr⟩ := by
    simp [deleteData, hcast]
  refine ⟨hu, hdel, ?_, ?_, rfl⟩
  · rw [hu]
    simp [runDataRoute, globalErrorHandler, hmsg]
  · rw [hdel]
    simp [runDataRoute, globalErrorHandler, hmsg]

/-- Witness for C10 at the uncastable id `"abc"`. -/
theorem invalid_objectid_gives_500_witness :
    runDataRoute [] (updateData [] 1 "abc" ⟨some "x", some "y"⟩) =
        (.err 500 (castErrMsg "abc"), []) ∧
      runDataRoute [] (deleteData [] 1 "abc") =
        (.err 500 (castErrMsg "abc"), []) := by
  have h := invalid_objectid_gives_500 [] 1 "abc" "x" "y" (by decide)
    (by decide) (by decide)
  exact ⟨h.2.2.1, h.2.2.2.1⟩

/-- Claim C7: a registration with all fields present, a password of at
least 6 characters and an unregistered email answers 201 with a token
whose verification yields the new identity's id as subject and with the
password-free user summary (role defaulting to `user`; the summary type
carries no password field at all), and the password persisted for the new
user is the bcrypt hash, which is never equal to the plaintext. -/
theorem register_success (db : List User) (secret : String) (now : Nat)
    (fid : Nat) (salt : String) (n e p : String)
    (hn : n ≠ "") (he : e ≠ "") (hp6 : 6 ≤ p.length)
    (hfree : findOneByEmail db e = none) :
    register db secret now fid salt ⟨some n, some e, some p⟩ =
        (.created "User created successfully" (jwtSign fid secret now)
          ⟨fid, trimStr n, lowerStr e, .user⟩,
         db ++ [⟨fid, trimStr n, lowerStr e, bcryptHash salt p, .user, now⟩]) ∧
      (RegisterResult.created "User created successfully"
        (jwtSign fid secret now)
        ⟨fid, trimStr n, lowerStr e, .user⟩).statusOf = 201 ∧
      jwtVerify (.signed (jwtSign fid secret now)) secret now =
        .ok ⟨fid, now, now + 86400⟩ ∧
      bcryptHash salt p ≠ p := by
  have hp : p ≠ "" := by
    intro h
    subst h
    exact absurd hp6 (by decide)
  have t1 : truthy (some n) = true := by simp [truthy, hn]
  have t2 : truthy (some e) = true := by simp [truthy, he]
  have t3 : truthy (some p) = true := by simp [truthy, hp]
  have hlen : ¬p.length < 6 := by omega
  refine ⟨?_, rfl, ?_, bcryptHash_ne_plaintext salt p⟩
  · simp [register, t1, t2, t3, hlen, hfree, userView]
  · simp [jwtVerify, jwtSign]

/-- Witness for C7: the concrete registration of the spec's scenario. -/
theorem register_success_witness :
    register [] "sec" 10 1 "sa"
        ⟨some "John", some "John@X.com", some "password123"⟩ =
      (.created "User created successfully" (jwtSign 1 "sec" 10)
        ⟨1, "John", "john@x.com", .user⟩,
       [⟨1, "John", "john@x.com", bcryptHash "sa" "password123", .user, 10⟩]) ∧
      bcryptHash "sa" "password123" ≠ "password123" := by
  have h := register_success [] "sec" 10 1 "sa" "John" "John@X.com"
    "password123" (by decide) (by decide) (by decide) rfl
  refine ⟨?_, h.2.2.2⟩
  rw [h.1]
  decide

/-- Claim C6: emails act case-insensitively as keys — with an identity
registered under email `e`, registering again under any case variant `e2`
fails 400 `'User already exists'`, the lookup under `e2` resolves the same
stored identity, and a login under `e2` answers exactly as the same login
under `e`. -/
theorem email_case_insensitive (db : List User) (secret : String)
    (now : Nat) (fid : Nat) (salt : String) (e e2 n p pw : String) (u : User)
    (hreg : findOneByEmail db e = some u)
    (hcase : lowerStr e2 = lowerStr e)
    (hn : n ≠ "") (hp6 : 6 ≤ p.length) (he : e ≠ "") (he2 : e2 ≠ "")
    (hpw : pw ≠ "") :
    (register db secret now fid salt ⟨some n, some e2, some p⟩) =
        (.err 400 "User already exists", db) ∧
      findOneByEmail db e2 = some u ∧
      login db secret now ⟨some e2, some pw⟩ =
        login db secret now ⟨some e, some pw⟩ := by
  have hfind2 : findOneByEmail db e2 = some u := by
    unfold findOneByEmail at hreg ⊢
    rw [hcase]
    exact hreg
  have hp : p ≠ "" := by
    intro h
    subst h
    exact absurd hp6 (by decide)
  have t1 : truthy (some n) = true := by simp [truthy, hn]
  have t2 : truthy (some e2) = true := by simp [truthy, he2]
  have t3 : truthy (some p) = true := by simp [truthy, hp]
  have t4 : truthy (some e) = true := by simp [truthy, he]
  have t5 : truthy (some pw) = true := by simp [truthy, hpw]
  have hlen : ¬p.length < 6 := by omega
  refine ⟨?_, hfind2, ?_⟩
  · simp [register, t1, t2, t3, hlen, hfind2]
  · simp [login, t2, t4, t5, hfind2, hreg]

/-- Witness for C6: `"John@X.com"` as a case variant of the registered
`"john@x.com"`. -/
theorem email_case_insensitive_witness :
    (register [⟨1, "Ann", "john@x.com", bcryptHash "s1" "hunter22", .user, 0⟩]
        "sec" 9 2 "s2" ⟨some "Bob", some "John@X.com", some "longenough"⟩) =
      (.err 400 "User already exists",
        [⟨1, "Ann", "john@x.com", bcryptHash "s1" "hunter22", .user, 0⟩]) ∧
      login [⟨1, "Ann", "john@x.com", bcryptHash "s1" "hunter22", .user, 0⟩]
          "sec" 9 ⟨some "John@X.com", some "hunter22"⟩ =
        login [⟨1, "Ann", "john@x.com", bcryptHash "s1" "hunter22", .user, 0⟩]
          "sec" 9 ⟨some "john@x.com", some "hunter22"⟩ := by
  have h := email_case_insensitive
    [⟨1, "Ann", "john@x.com", bcryptHash "s1" "hunter22", .user, 0⟩]
    "sec" 9 2 "s2" "john@x.com" "John@X.com" "Bob" "longenough" "hunter22"
    ⟨1, "Ann", "john@x.com", bcryptHash "s1" "hunter22", .user, 0⟩
    (by decide) (by decide) (by decide) (by decide) (by decide) (by decide)
    (by decide)
  exact ⟨h.1, h.2.2⟩

/-- Claim C8: the authenticated list endpoint returns exactly the records
owned by the requesting identity — a permutation of the owner-filtered
store, with membership holding precisely for the requester's records — in
creation-time descending order. -/
theorem list_owned_sorted (db : List DataItem) (uid : Nat) :
    (getData db uid).Perm (db.filter (fun it => it.userId == uid)) ∧
      (∀ it, it ∈ getData db uid ↔ it ∈ db ∧ it.userId = uid) ∧
      (getData db uid).Pairwise
        (fun a b => b.createdAt ≤ a.createdAt) := by
  have hperm := List.perm_insertionSort createdDescRel
    (db.filter (fun it => it.userId == uid))
  refine ⟨hperm, ?_, ?_⟩
  · intro it
    unfold getData
    rw [hperm.mem_iff, List.mem_filter]
    simp
  · exact List.sorted_insertionSort createdDescRel
      (db.filter (fun it => it.userId == uid))

/-- Claim C4: the middleware succeeds exactly when the spec's conditions
hold — a `Bearer`-prefixed header carrying a token signed with the server
secret, unexpired, whose subject id exists in the store — and then the
protected handler runs with the resolved password-free view of a stored
user (the `UserView` type carries no password field); in every other case
the middleware answers 401 and the handler never runs (the route's response
is the middleware's error, whatever the handler is). -/
theorem middleware_gates_handler {α : Type} (db : List User)
    (secret : String) (now : Nat) (hdr : Option AuthHeaderVal)
    (handler : UserView → Except ErrResp α) :
    ((∃ u, authenticateToken db secret now hdr = .ok u) ↔
        specAuthOk db secret now hdr) ∧
      (∀ e, authenticateToken db secret now hdr = .error e →
        e.status = 401 ∧
          protectedRoute db secret now hdr handler = .error e) ∧
      (∀ u, authenticateToken db secret now hdr = .ok u →
        protectedRoute db secret now hdr handler = handler u ∧
          ∃ su ∈ db, su._id = u.id ∧ u = userView su) := by
  refine ⟨⟨?_, ?_⟩, ?_, ?_⟩
  · rintro ⟨u, h⟩
    match hdr with
    | none => simp [authenticateToken, extractBearer] at h
    | some (.notBearer s) => simp [authenticateToken, extractBearer] at h
    | some (.bearer (.garbage s)) =>
      by_cases hs : s = "" <;>
        simp [authenticateToken, extractBearer, TokenStr.strEmpty, hs,
          jwtVerify] at h
    | some (.bearer (.signed t)) =>
      simp only [authenticateToken, extractBearer, TokenStr.strEmpty,
        if_neg Bool.false_ne_true, jwtVerify] at h
      by_cases hsig : t.sig = secret
      · by_cases hexp : t.exp ≤ now
        · simp [hsig, hexp] at h
        · cases hfind : findById db t.userId with
          | none => simp [hsig, hexp, hfind] at h
          | some su =>
            refine ⟨t, rfl, hsig, Nat.lt_of_not_le hexp, su,
              List.mem_of_find?_eq_some hfind, ?_⟩
            have := List.find?_some hfind
            simpa using this
      · simp [hsig] at h
  · rintro ⟨t, rfl, hsig, hlt, su0, hmem, hid⟩
    have hnle : ¬t.exp ≤ now := Nat.not_le.mpr hlt
    have hsome : (db.find? (fun u => u._id == t.userId)).isSome = true :=
      List.find?_isSome.mpr ⟨su0, hmem, by simp [hid]⟩
    obtain ⟨su1, hfind⟩ := Option.isSome_iff_exists.mp hsome
    refine ⟨userView su1, ?_⟩
    simp [authenticateToken, extractBearer, TokenStr.strEmpty, jwtVerify,
      hsig, hnle, findById, hfind]
  · intro e h
    constructor
    · rcases authenticateToken_error_cases db secret now hdr e h with
        h1 | h1 | h1 <;> simp [h1]
    · simp [protectedRoute, h]
  · intro u h
    refine ⟨by simp [protectedRoute, h], ?_⟩
    unfold authenticateToken at h
    cases hext : extractBearer hdr with
    | none => simp [hext] at h
    | some ts =>
      simp only [hext] at h
      cases hver : jwtVerify ts secret now with
      | error je => simp [hver] at h
      | ok payload =>
        simp only [hver] at h
        cases hfind : findById db payload.userId with
        | none => simp [hfind] at h
        | some su =>
          simp only [hfind, Except.ok.injEq] at h
          refine ⟨su, List.mem_of_find?_eq_some hfind, ?_, h.symm⟩
          rw [← h]
          rfl

/-- Witness for C4: a concrete protected request that passes every
condition and runs the handler, and one with no header that is answered
401 without the handler running. -/
theorem middleware_gates_handler_witness :
    protectedRoute [⟨1, "Ann", "a@b.c", "h", .user, 0⟩] "s" 5
        (some (.bearer (.signed ⟨1, 0, 86400, "s"⟩)))
        (fun u => (.ok u.name : Except ErrResp String)) = .ok "Ann" ∧
      protectedRoute [⟨1, "Ann", "a@b.c", "h", .user, 0⟩] "s" 5 none
        (fun u => (.ok u.name : Except ErrResp String)) =
        .error ⟨401, "Access token required"⟩ ∧
      (ErrResp.mk 401 "Access token required").status = 401 := by
  have h := middleware_gates_handler
    [⟨1, "Ann", "a@b.c", "h", .user, 0⟩] "s" 5
    (some (.bearer (.signed ⟨1, 0, 86400, "s"⟩)))
    (fun u => (.ok u.name : Except ErrResp String))
  have h2 := middleware_gates_handler
    [⟨1, "Ann", "a@b.c", "h", .user, 0⟩] "s" 5 none
    (fun u => (.ok u.name : Except ErrResp String))
  refine ⟨?_, (h2.2.1 ⟨401, "Access token required"⟩ rfl).2,
    (h2.2.1 ⟨401, "Access token required"⟩ rfl).1⟩
  have h3 := (h.2.2 ⟨1, "Ann", "a@b.c", .user⟩ rfl).1
  rw [h3]

end MernAuth
